import Mathlib

/-!
Verification of the persistent browser-automation session engine of the
Quantarum `web_enhanced` adapter (`agent-bus/adapters/clipboard/cli.js`,
second embedded document: the enhanced web adapter).

The JavaScript source is shallowly embedded: the browser driver (Playwright)
is modelled as an explicit `World` of contexts and pages, the adapter's
mutable objects (`SessionManager`, `PageManager`) become explicit state
records, timestamps (`Date.now()`) and `Math.random()` draws are explicit
parameters, and side effects relevant to the claims (auth snapshots, context
teardown, page creation/navigation) are recorded in an event trace.
-/

/-! ## String helpers

Lean's built-in `String.trim`/`startsWith` are implemented with well-founded
recursion that the kernel cannot evaluate, so the JS string operations used
by the adapter are modelled on `List Char` instead. -/

/-- Is `pat` a contiguous sublist of `l`?  Models JS `String.includes`. -/
def isInfixList (pat : List Char) : List Char → Bool
  | [] => pat.isEmpty
  | c :: rest => pat.isPrefixOf (c :: rest) || isInfixList pat rest

/-- JS `s.includes(pat)`. -/
def strIncludes (s pat : String) : Bool := isInfixList pat.data s.data

/-- ASCII whitespace, the common case of what JS `String.trim` removes. -/
def jsWhitespace (c : Char) : Bool := c = ' ' || c = '\t' || c = '\n' || c = '\r'

/-- JS `s.trim()`. -/
def strTrim (s : String) : String :=
  String.mk (((s.data.dropWhile jsWhitespace).reverse.dropWhile jsWhitespace).reverse)

/-- JS `s.startsWith(p)`. -/
def strStartsWith (s p : String) : Bool := p.data.isPrefixOf s.data

/-- JS `s.slice(n)` (drop the first `n` characters). -/
def strSlice (s : String) (n : Nat) : String := String.mk (s.data.drop n)

/-- JS truthiness of an optional string argument: `undefined` and `""` are falsy. -/
def truthyStr : Option String → Bool
  | none => false
  | some s => s ≠ ""

/-- Normalize an optional string to `none` when it is JS-falsy. -/
def jsStrOpt : Option String → Option String
  | none => none
  | some s => if s = "" then none else some s

/-! ## Insertion-ordered string-keyed maps

JS `Map` semantics: `set` on a present key updates in place, otherwise
appends; iteration follows insertion order. -/

/-- JS `map.get(k)` (first matching key). -/
def mapGet (k : String) : List (String × α) → Option α
  | [] => none
  | (k2, v) :: rest => if k2 = k then some v else mapGet k rest

/-- JS `map.set(k, v)`. -/
def mapSet (k : String) (v : α) : List (String × α) → List (String × α)
  | [] => [(k, v)]
  | (k2, v2) :: rest => if k2 = k then (k2, v) :: rest else (k2, v2) :: mapSet k v rest

/-- JS `map.delete(k)`. -/
def mapDel (k : String) : List (String × α) → List (String × α)
  | [] => []
  | (k2, v2) :: rest => if k2 = k then rest else (k2, v2) :: mapDel k rest

theorem mapGet_set_self (k : String) (v : α) :
    ∀ l : List (String × α), mapGet k (mapSet k v l) = some v := by
  intro l
  induction l with
  | nil => simp [mapSet, mapGet]
  | cons hd tl ih =>
      obtain ⟨k2, v2⟩ := hd
      by_cases h : k2 = k
      · simp [mapSet, mapGet, h]
      · simp [mapSet, mapGet, h, ih]

/-! ## The browser world

The external Playwright driver: persistent contexts and their pages.
`launchPersistentContext` opens a context together with one initial blank
page; pages can be closed from outside the adapter (`extClosePage`), which
the source acknowledges through its `page.isClosed()` checks. -/

/-- One browser page (tab) as the driver sees it. -/
structure PageRec where
  pid : Nat
  ctx : Nat
  url : String
  title : String
  closed : Bool
  deriving DecidableEq, Repr

/-- The browser-driver state outside the adapter process. -/
structure World where
  pages : List PageRec
  nextPid : Nat
  nextCtx : Nat
  deriving DecidableEq, Repr

/-- Playwright `context.pages()`: the open pages of a context. -/
def contextPages (w : World) (ctx : Nat) : List PageRec :=
  w.pages.filter (fun p => p.ctx = ctx && !p.closed)

def findPage (w : World) (pid : Nat) : Option PageRec :=
  w.pages.find? (fun p => p.pid = pid)

/-- Playwright `page.isClosed()` (a missing page counts as closed). -/
def pageIsClosed (w : World) (pid : Nat) : Bool :=
  match findPage w pid with
  | some p => p.closed
  | none => true

/-- Playwright `page.url()`. -/
def pageUrl (w : World) (pid : Nat) : String :=
  match findPage w pid with
  | some p => p.url
  | none => ""

/-- Playwright `page.title()`. -/
def pageTitle (w : World) (pid : Nat) : String :=
  match findPage w pid with
  | some p => p.title
  | none => ""

/-- Playwright `page.goto(url)`: the page ends up at the requested address. -/
def gotoPage (w : World) (pid : Nat) (url : String) : World :=
  { w with pages := w.pages.map (fun p => if p.pid = pid then { p with url := url } else p) }

/-- Playwright `context.newPage()`: a fresh open page at `about:blank`. -/
def newPage (w : World) (ctx : Nat) : Nat × World :=
  (w.nextPid,
   { w with pages := w.pages ++ [{ pid := w.nextPid, ctx := ctx, url := "about:blank",
                                   title := "", closed := false }],
            nextPid := w.nextPid + 1 })

/-- Playwright `chromium.launchPersistentContext`: a fresh context with its
initial blank page. -/
def launchPersistentContext (w : World) : Nat × World :=
  (w.nextCtx,
   { pages := w.pages ++ [{ pid := w.nextPid, ctx := w.nextCtx, url := "about:blank",
                            title := "", closed := false }],
     nextPid := w.nextPid + 1,
     nextCtx := w.nextCtx + 1 })

/-- Playwright `context.close()`: every page of the context is closed. -/
def closeCtxPages (w : World) (ctx : Nat) : World :=
  { w with pages := w.pages.map (fun p => if p.ctx = ctx then { p with closed := true } else p) }

/-- An environment action: the web page (or user) closes a tab. -/
def extClosePage (w : World) (pid : Nat) : World :=
  { w with pages := w.pages.map (fun p => if p.pid = pid then { p with closed := true } else p) }

/-! ## Adapter data model (from the source) -/

/-- The option fields of `createSession`/`getOrCreatePage` that the modelled
behaviour inspects.  `reuseTab` models the JS check `options.reuseTab !== false`. -/
structure SessionOptions where
  reuseTab : Bool := true
  deriving DecidableEq, Repr

/-- The `pageInfo` record of `PageManager`: `{ page, createdAt, tabIndex }`. -/
structure PageInfo where
  pid : Nat
  createdAt : Nat
  tabIndex : Nat
  deriving DecidableEq, Repr

/-- The `session` object built in `SessionManager.createSession`:
`{ id, context, pages, createdAt, lastUsed, options, tabs }`. -/
structure Session where
  id : String
  ctx : Nat
  pages : List (String × PageInfo)
  createdAt : Nat
  lastUsed : Nat
  options : SessionOptions
  tabs : List PageInfo
  deriving DecidableEq, Repr

/-- Observable side effects of the adapter, in program order. -/
inductive Ev where
  /-- A session object was registered (`activeSessions.set`). -/
  | sessionCreated (sid : String) (ctx : Nat)
  /-- `saveAuthState` ran for `sid`; `wrote` records whether the auth file
  was written (the source writes only when `context.pages().length > 0`). -/
  | authSave (sid : String) (wrote : Bool)
  /-- `context.close()` for the context of session `sid`. -/
  | ctxClosed (sid : String) (ctx : Nat)
  /-- `context.newPage()` produced page `pid`. -/
  | pageCreated (pid : Nat)
  /-- `page.goto(url)` on page `pid`. -/
  | navigated (pid : Nat) (url : String)
  /-- `locator.waitFor(...)` touched a locator on page `pid`. -/
  | locatorWaited (pid : Nat)
  deriving DecidableEq, Repr

/-- The `SessionManager` state, plus bookkeeping the claims need:
`createdLog` records every session object ever created (with its context),
`destroyedCtxs` the contexts torn down by `closeSession`. -/
structure MgrState where
  activeSessions : List (String × Session)
  createdLog : List (String × Nat)
  destroyedCtxs : List Nat
  deriving DecidableEq, Repr

def MAX_SESSIONS : Nat := 5

def SESSION_TIMEOUT : Nat := 30 * 60 * 1000

def emptyMgr : MgrState := { activeSessions := [], createdLog := [], destroyedCtxs := [] }

def emptyWorld : World := { pages := [], nextPid := 0, nextCtx := 0 }

/-! ## SessionManager operations -/

/-- `SessionManager.saveAuthState(context, sessionId)`: reads cookies and the
storage blobs and writes the per-id auth file — but only when the context has
at least one open page (`if (pages.length > 0)`); errors are swallowed. -/
def saveAuthState (w : World) (ctx : Nat) (sid : String) : List Ev :=
  [.authSave sid (!(contextPages w ctx).isEmpty)]

/-- `SessionManager.closeSession(sessionId)`: no-op if unknown; otherwise save
auth state, close the context, drop the pool entry. -/
def closeSession (st : MgrState) (w : World) (sid : String) : MgrState × World × List Ev :=
  match mapGet sid st.activeSessions with
  | none => (st, w, [])
  | some s =>
      ({ st with activeSessions := mapDel sid st.activeSessions,
                 destroyedCtxs := s.ctx :: st.destroyedCtxs },
       closeCtxPages w s.ctx,
       saveAuthState w s.ctx sid ++ [.ctxClosed sid s.ctx])

/-- The scan of `cleanupOldestSession`: running minimum seeded with
`Date.now()` and a strict `<` comparison, in pool iteration order. -/
def findOldest : List (String × Session) → Nat → Option String → Option String
  | [], _, oldest => oldest
  | (id, s) :: rest, oldestTime, oldest =>
      if s.lastUsed < oldestTime then findOldest rest s.lastUsed (some id)
      else findOldest rest oldestTime oldest

/-- `SessionManager.cleanupOldestSession()`. -/
def cleanupOldestSession (st : MgrState) (w : World) (now : Nat) :
    MgrState × World × List Ev :=
  match findOldest st.activeSessions now none with
  | some sid => closeSession st w sid
  | none => (st, w, [])

/-- A `for (const sessionId of ...) await this.closeSession(sessionId)` loop,
shared by the expiry sweep and the termination-signal handlers. -/
def closeMany (st : MgrState) (w : World) : List String → MgrState × World × List Ev
  | [] => (st, w, [])
  | sid :: rest =>
      let r := closeSession st w sid
      let r2 := closeMany r.1 r.2.1 rest
      (r2.1, r2.2.1, r.2.2 ++ r2.2.2)

/-- `SessionManager.cleanupExpiredSessions()`: close every session idle
longer than `SESSION_TIMEOUT`. -/
def cleanupExpiredSessions (st : MgrState) (w : World) (now : Nat) :
    MgrState × World × List Ev :=
  closeMany st w ((st.activeSessions.filter
    (fun e => decide (now - e.2.lastUsed > SESSION_TIMEOUT))).map (·.1))

/-- The cleanup loop of the SIGINT/SIGTERM handlers: close every pooled id. -/
def signalCleanup (st : MgrState) (w : World) : MgrState × World × List Ev :=
  closeMany st w (st.activeSessions.map (·.1))

/-- Result of a session-producing operation. -/
structure SessRes where
  session : Session
  st : MgrState
  w : World
  evs : List Ev
  deriving DecidableEq, Repr

/-- `SessionManager.createSession(sessionId, options)`: evict (at the
capacity ceiling) via `cleanupOldestSession`, launch a fresh persistent
context, register the new session object. -/
def createSession (st : MgrState) (w : World) (sid : String) (opts : SessionOptions)
    (now : Nat) : SessRes :=
  let e := if st.activeSessions.length ≥ MAX_SESSIONS
           then cleanupOldestSession st w now
           else (st, w, [])
  let st1 := e.1
  let l := launchPersistentContext e.2.1
  let session : Session :=
    { id := sid, ctx := l.1, pages := [], createdAt := now, lastUsed := now,
      options := opts, tabs := [] }
  { session := session,
    st := { st1 with activeSessions := mapSet sid session st1.activeSessions,
                     createdLog := st1.createdLog ++ [(sid, l.1)] },
    w := l.2,
    evs := e.2.2 ++ [.sessionCreated sid l.1] }

/-- `SessionManager.getSession(sessionId)`: refresh `lastUsed` on a hit. -/
def getSession (st : MgrState) (sid : String) (now : Nat) : Option Session × MgrState :=
  match mapGet sid st.activeSessions with
  | some s =>
      let s2 := { s with lastUsed := now }
      (some s2, { st with activeSessions := mapSet sid s2 st.activeSessions })
  | none => (none, st)

/-- `SessionManager.getOrCreateSession(sessionId, options)`. -/
def getOrCreateSession (st : MgrState) (w : World) (sid : String)
    (opts : SessionOptions) (now : Nat) : SessRes :=
  match getSession st sid now with
  | (some s, st1) => { session := s, st := st1, w := w, evs := [] }
  | (none, st1) => createSession st1 w sid opts now

/-- The live session objects for an id: contexts created for it and not yet
destroyed.  The spec bounds every Session lifetime by close/eviction/expiry,
so at most one should be live per id. -/
def liveContextsFor (st : MgrState) (sid : String) : List Nat :=
  ((st.createdLog.filter (fun e => e.1 = sid)).map (·.2)).filter
    (fun c => !(st.destroyedCtxs.contains c))

/-! ## Dispatcher verbs on the session registry -/

/-- Output of the `createSession` verb. -/
inductive CreateSessionOut where
  | ok (sessionId : String) (created : Bool)
  | failMissing (missing : List String)
  deriving DecidableEq, Repr

/-- `doCreateSession(args)`: validate `sessionId`, then call
`sessionManager.createSession` directly (no existence check). -/
def doCreateSession (st : MgrState) (w : World) (sessionId : Option String)
    (opts : SessionOptions) (now : Nat) : CreateSessionOut × MgrState × World × List Ev :=
  match jsStrOpt sessionId with
  | none => (.failMissing ["sessionId"], st, w, [])
  | some sid =>
      let r := createSession st w sid opts now
      (.ok sid true, r.st, r.w, r.evs)

/-- One entry of `PageManager.getTabInfo`'s answer. -/
structure TabInfo where
  index : Nat
  url : String
  title : String
  createdAt : Nat
  deriving DecidableEq, Repr

/-- `PageManager.getTabInfo(sessionId)`: `{ tabs: [] }` for an unknown id,
otherwise the indexed list of the session's still-open tabs. -/
def getTabInfo (st : MgrState) (w : World) (sid : String) (now : Nat) :
    List TabInfo × MgrState :=
  match getSession st sid now with
  | (none, st1) => ([], st1)
  | (some s, st1) =>
      (s.tabs.enum.filterMap (fun e =>
        if pageIsClosed w e.2.pid then none
        else some { index := e.1, url := pageUrl w e.2.pid, title := pageTitle w e.2.pid,
                    createdAt := e.2.createdAt }), st1)

/-- Output of the `getTabs` verb. -/
inductive GetTabsOut where
  | ok (tabs : List TabInfo) (sessionId : String)
  deriving DecidableEq, Repr

/-- `doGetTabs(args)`: `ok({ ...getTabInfo(sessionId), sessionId })`. -/
def doGetTabs (st : MgrState) (w : World) (sessionId : String) (now : Nat) :
    GetTabsOut × MgrState :=
  let r := getTabInfo st w sessionId now
  (.ok r.1 sessionId, r.2)

/-! ## Destruction-trace predicates (claim C3) -/

/-- Claim reading: index `i` is fine unless it closes a context whose session
id has no actual auth-file write earlier in the trace. -/
def authWrittenBeforeCloseAt (evs : List Ev) (i : Nat) : Bool :=
  match evs[i]? with
  | some (.ctxClosed sid _) => (evs.take i).any (fun e => e == .authSave sid true)
  | _ => true

/-- Claim reading of C3: every context teardown in the trace is preceded by an
auth-file write for the same session id. -/
def authWrittenBeforeClose (evs : List Ev) : Prop :=
  ∀ i < evs.length, authWrittenBeforeCloseAt evs i = true

instance (evs : List Ev) : Decidable (authWrittenBeforeClose evs) := by
  unfold authWrittenBeforeClose
  infer_instance

/-- Amended reading of C3: every context teardown is preceded by a
`saveAuthState` attempt (written or skipped) for the same session id. -/
def attemptBefore (evs : List Ev) : Prop :=
  ∀ (i : Nat) (sid : String) (ctx : Nat), evs[i]? = some (Ev.ctxClosed sid ctx) →
    ∃ j : Nat, j < i ∧ ∃ b : Bool, evs[j]? = some (Ev.authSave sid b)

theorem attemptBefore_nil : attemptBefore [] := by
  intro i sid ctx h
  simp at h

theorem attemptBefore_append {xs ys : List Ev}
    (hx : attemptBefore xs) (hy : attemptBefore ys) : attemptBefore (xs ++ ys) := by
  intro i sid ctx h
  by_cases hlen : i < xs.length
  · rw [List.getElem?_append, if_pos hlen] at h
    obtain ⟨j, hj, b, hb⟩ := hx i sid ctx h
    exact ⟨j, hj, b, by rw [List.getElem?_append, if_pos (by omega)]; exact hb⟩
  · push_neg at hlen
    rw [List.getElem?_append_right hlen] at h
    obtain ⟨j, hj, b, hb⟩ := hy (i - xs.length) sid ctx h
    refine ⟨xs.length + j, by omega, b, ?_⟩
    rw [List.getElem?_append_right (by omega)]
    simpa using hb

theorem attemptBefore_closeSession (st : MgrState) (w : World) (sid : String) :
    attemptBefore (closeSession st w sid).2.2 := by
  unfold closeSession
  cases h : mapGet sid st.activeSessions with
  | none => exact attemptBefore_nil
  | some s =>
      intro i sid2 ctx hi
      simp only [saveAuthState] at hi
      match i, hi with
      | 1, hi =>
          refine ⟨0, by omega, !(contextPages w s.ctx).isEmpty, ?_⟩
          simp only [saveAuthState]
          have : sid2 = sid := by
            simp at hi
            exact hi.1.symm
          rw [this]
          rfl

theorem attemptBefore_closeMany (sids : List String) :
    ∀ st w, attemptBefore (closeMany st w sids).2.2 := by
  induction sids with
  | nil => intro st w; exact attemptBefore_nil
  | cons sid rest ih =>
      intro st w
      unfold closeMany
      exact attemptBefore_append (attemptBefore_closeSession st w sid)
        (ih _ _)

/-! ## Claims C1, C2, C3, C10 -/

/-- The pool state of claim C1's failing input: five sessions created at
timestamp 100, so every `lastUsed` equals 100. -/
def c1Pool : MgrState × World :=
  ["s1", "s2", "s3", "s4", "s5"].foldl
    (fun acc sid =>
      let r := createSession acc.1 acc.2 sid {} 100
      (r.st, r.w))
    (emptyMgr, emptyWorld)

/-- C1: creating a session at the capacity ceiling is supposed to evict the
least-recently-used session so that the pool never exceeds the ceiling.
Evaluating the code at the failing input — five pooled sessions whose
`lastUsed` equals the current clock reading (sessions created in the same
millisecond) — shows `cleanupOldestSession`'s minimum scan, seeded with
`Date.now()` and using a strict `<`, selects nothing: no session is closed
and the pool is silently over-committed to six entries. -/
theorem createSession_overflow_at_capacity :
    MAX_SESSIONS = 5 ∧
    c1Pool.1.activeSessions.length = 5 ∧
    (∀ e ∈ c1Pool.1.activeSessions, e.2.lastUsed = 100) ∧
    (createSession c1Pool.1 c1Pool.2 "s6" {} 100).st.activeSessions.length = 6 ∧
    (createSession c1Pool.1 c1Pool.2 "s6" {} 100).st.destroyedCtxs = [] ∧
    (createSession c1Pool.1 c1Pool.2 "s6" {} 100).evs = [.sessionCreated "s6" 5] := by
  decide

/-- Two `createSession` verb invocations for the same id. -/
def c2Run : CreateSessionOut × MgrState × World × List Ev :=
  let r1 := doCreateSession emptyMgr emptyWorld (some "a") {} 0
  doCreateSession r1.2.1 r1.2.2.1 (some "a") {} 1

/-- C2 counterexample: the `createSession` verb invoked for an id that is
already registered replaces the registry entry with a fresh session but never
closes the previous context, leaving two live sessions for id `"a"`. -/
theorem createSession_verb_duplicates_live_sessions :
    (liveContextsFor c2Run.2.1 "a").length = 2 ∧
    ¬ (liveContextsFor c2Run.2.1 "a").length ≤ 1 := by
  decide

/-- C2 as amended: `getOrCreateSession(id)` called twice without an
intervening close returns the identical session (same browsing context) and
creates no second session object; the registry itself holds at most one entry
per id.  The original claim's further assertion — that no operation at all
can yield two live sessions for one id — fails for the `createSession` verb
on a registered id (see the counterexample). -/
theorem getOrCreateSession_twice_identical (st : MgrState) (w : World) (sid : String)
    (opts : SessionOptions) (t1 t2 : Nat) :
    ((getOrCreateSession (getOrCreateSession st w sid opts t1).st
        (getOrCreateSession st w sid opts t1).w sid opts t2).session.ctx
      = (getOrCreateSession st w sid opts t1).session.ctx) ∧
    ((getOrCreateSession (getOrCreateSession st w sid opts t1).st
        (getOrCreateSession st w sid opts t1).w sid opts t2).st.createdLog
      = (getOrCreateSession st w sid opts t1).st.createdLog) := by
  unfold getOrCreateSession getSession
  cases h : mapGet sid st.activeSessions with
  | some s =>
      simp only [h, mapGet_set_self]
      constructor <;> trivial
  | none =>
      simp only [h]
      have hc : mapGet sid (createSession st w sid opts t1).st.activeSessions
          = some (createSession st w sid opts t1).session := by
        unfold createSession
        simp [mapGet_set_self]
      simp only [hc, mapGet_set_self]
      constructor <;> trivial

/-- A destruction trace in which the context still holds auth state but has
no open page: create `"a"` (context 0 with initial page 0), let the
environment close the tab, then close the session. -/
def c3Run : MgrState × World × List Ev :=
  let r := createSession emptyMgr emptyWorld "a" {} 0
  closeSession r.st (extClosePage r.w 0) "a"

/-- C3 counterexample: `closeSession` on a session whose context has zero
open pages emits no auth-file write before tearing the context down —
`saveAuthState` skips the write when `context.pages()` is empty, so the
AuthState (cookies included) is dropped silently. -/
theorem closeSession_drops_auth_without_pages :
    c3Run.2.2 = [.authSave "a" false, .ctxClosed "a" 0] ∧
    ¬ authWrittenBeforeClose c3Run.2.2 := by
  decide

/-- C3 as amended: every destruction path — explicit close, LRU eviction,
idle-expiry sweep, termination-signal cleanup — runs `saveAuthState` for the
session before its context is torn down, but the snapshot is actually written
only when the context still has an open page; with zero open pages it is
skipped. -/
theorem destruction_paths_attempt_auth_save (st : MgrState) (w : World) (sid : String)
    (now : Nat) :
    attemptBefore (closeSession st w sid).2.2 ∧
    attemptBefore (cleanupOldestSession st w now).2.2 ∧
    attemptBefore (cleanupExpiredSessions st w now).2.2 ∧
    attemptBefore (signalCleanup st w).2.2 := by
  refine ⟨attemptBefore_closeSession st w sid, ?_, ?_, ?_⟩
  · unfold cleanupOldestSession
    cases findOldest st.activeSessions now none with
    | some sid2 => exact attemptBefore_closeSession st w sid2
    | none => exact attemptBefore_nil
  · exact attemptBefore_closeMany _ st w
  · exact attemptBefore_closeMany _ st w

/-- C10: the `getTabs` verb on an id absent from the registry succeeds with an
empty tab list `{ tabs: [], sessionId }` and leaves the session pool (indeed
the whole manager state) unchanged. -/
theorem getTabs_unknown_session (st : MgrState) (w : World) (sid : String) (now : Nat)
    (h : mapGet sid st.activeSessions = none) :
    doGetTabs st w sid now = (.ok [] sid, st) := by
  unfold doGetTabs getTabInfo getSession
  simp [h]

/-- C10 witness: a concrete unknown id on the empty registry. -/
theorem getTabs_unknown_session_witness :
    mapGet "ghost" emptyMgr.activeSessions = none ∧
    doGetTabs emptyMgr emptyWorld "ghost" 0 = (.ok [] "ghost", emptyMgr) :=
  ⟨by decide, getTabs_unknown_session emptyMgr emptyWorld "ghost" 0 (by decide)⟩

/-! ## Error Recovery (`ErrorRecovery.executeWithRetry`)

The action is modelled as a function from the attempt number (0-based) to the
attempt's outcome; `Math.random()` draws for the jitter are the stream
`rand`.  Delays are rationals (milliseconds).  The error result is
`Option String` because with `maxRetries = 0` the JS code throws the
still-undefined `lastError`. -/

/-- The `error.message.includes('Target closed') || ...includes('Session closed')`
classification of resource-destroyed failures. -/
def isDestroyedMsg (m : String) : Bool :=
  strIncludes m "Target closed" || strIncludes m "Session closed"

/-- Outcome of an `executeWithRetry` run: how often the action ran, the
backoff delays slept (in order), and the final result. -/
structure RetryRes (α : Type) where
  calls : Nat
  delays : List ℚ
  result : Except (Option String) α

/-- The retry loop body: `fuel` counts the remaining iterations
(`maxRetries - i`), `i` the current 0-based attempt, `ds` the delays so far. -/
def executeWithRetryGo (action : Nat → Except String α) (retryDelay : ℚ)
    (rand : Nat → ℚ) : Nat → Nat → List ℚ → RetryRes α
  | 0, i, ds => ⟨i, ds, .error none⟩
  | fuel + 1, i, ds =>
      match action i with
      | .ok v => ⟨i + 1, ds, .ok v⟩
      | .error e =>
          if fuel = 0 then ⟨i + 1, ds, .error (some e)⟩
          else
            let d := retryDelay * 2 ^ i + rand i * 1000
            if isDestroyedMsg e then ⟨i + 1, ds ++ [d], .error (some e)⟩
            else executeWithRetryGo action retryDelay rand fuel (i + 1) (ds ++ [d])

/-- `ErrorRecovery.executeWithRetry(action, maxRetries = 3, retryDelay = 1000)`. -/
def executeWithRetry (action : Nat → Except String α) (maxRetries : Nat)
    (retryDelay : ℚ) (rand : Nat → ℚ) : RetryRes α :=
  executeWithRetryGo action retryDelay rand maxRetries 0 []

theorem executeWithRetryGo_allFail (errs : Nat → String) (retryDelay : ℚ)
    (rand : Nat → ℚ) (htrans : ∀ i, isDestroyedMsg (errs i) = false) :
    ∀ fuel i ds, 1 ≤ fuel →
      executeWithRetryGo (fun j => Except.error (errs j) : Nat → Except String Unit)
          retryDelay rand fuel i ds =
        ⟨i + fuel,
         ds ++ (List.range' i (fuel - 1)).map (fun k => retryDelay * 2 ^ k + rand k * 1000),
         .error (some (errs (i + fuel - 1)))⟩ := by
  intro fuel
  induction fuel with
  | zero => intro i ds h; omega
  | succ f ih =>
      intro i ds _
      by_cases hf : f = 0
      · subst hf
        simp [executeWithRetryGo]
      · have hfge : 1 ≤ f := by omega
        simp only [executeWithRetryGo, hf, if_false, htrans i, Bool.false_eq_true]
        rw [ih (i + 1) (ds ++ [retryDelay * 2 ^ i + rand i * 1000]) hfge]
        have hr : List.range' i (f + 1 - 1) = i :: List.range' (i + 1) (f - 1) := by
          have h2 : f + 1 - 1 = (f - 1) + 1 := by omega
          rw [h2, List.range'_succ]
        rw [hr]
        simp only [List.map_cons, List.append_assoc, List.singleton_append, RetryRes.mk.injEq]
        refine ⟨by omega, by simp, ?_⟩
        have h3 : i + (f + 1) - 1 = i + 1 + f - 1 := by omega
        rw [h3]

/-- C4: with every attempt failing transiently (no resource-destroyed
message), `executeWithRetry` runs the action exactly `maxRetries` times,
surfaces the error of the last attempt, and sleeps `maxRetries - 1` backoff
delays where the delay before the k-th retry (0-based `k`) is
`retryDelay * 2 ^ k + rand k * 1000`, the jitter term staying below 1000 ms
for draws in `[0, 1)`. -/
theorem executeWithRetry_transient_exhausts (errs : Nat → String) (retryDelay : ℚ)
    (rand : Nat → ℚ) (maxRetries : Nat) (hn : 1 ≤ maxRetries)
    (htrans : ∀ i, isDestroyedMsg (errs i) = false)
    (hrand : ∀ k, 0 ≤ rand k ∧ rand k < 1) :
    (executeWithRetry (fun j => Except.error (errs j) : Nat → Except String Unit)
        maxRetries retryDelay rand).calls = maxRetries ∧
    (executeWithRetry (fun j => Except.error (errs j) : Nat → Except String Unit)
        maxRetries retryDelay rand).result = .error (some (errs (maxRetries - 1))) ∧
    (executeWithRetry (fun j => Except.error (errs j) : Nat → Except String Unit)
        maxRetries retryDelay rand).delays =
      (List.range (maxRetries - 1)).map (fun k => retryDelay * 2 ^ k + rand k * 1000) ∧
    (∀ k, 0 ≤ rand k * 1000 ∧ rand k * 1000 < 1000) := by
  have h := executeWithRetryGo_allFail errs retryDelay rand htrans maxRetries 0 [] hn
  unfold executeWithRetry
  rw [h]
  refine ⟨by simp, by simp, ?_, ?_⟩
  · simp [List.range_eq_range']
  · intro k
    obtain ⟨h0, h1⟩ := hrand k
    constructor
    · positivity
    · linarith

/-- C4 witness: three attempts at the defaults, all failing with a transient
`"boom"`, jitter draw fixed at one half: three calls, the last error
surfaced, delays `[1500, 2500]`. -/
theorem executeWithRetry_transient_exhausts_witness :
    (executeWithRetry (fun _ => Except.error "boom" : Nat → Except String Unit)
        3 1000 (fun _ => (1 : ℚ) / 2)).calls = 3 ∧
    (executeWithRetry (fun _ => Except.error "boom" : Nat → Except String Unit)
        3 1000 (fun _ => (1 : ℚ) / 2)).result = .error (some "boom") ∧
    (executeWithRetry (fun _ => Except.error "boom" : Nat → Except String Unit)
        3 1000 (fun _ => (1 : ℚ) / 2)).delays = [1500, 2500] := by
  have h := executeWithRetry_transient_exhausts (fun _ => "boom") 1000
    (fun _ => (1 : ℚ) / 2) 3 (by omega)
    (by intro i; show isDestroyedMsg "boom" = false; decide)
    (fun _ => ⟨by norm_num, by norm_num⟩)
  refine ⟨h.1, h.2.1, ?_⟩
  rw [h.2.2.1]
  norm_num [List.range_succ]

theorem executeWithRetryGo_destroyed (action : Nat → Except String α) (retryDelay : ℚ)
    (rand : Nat → ℚ) :
    ∀ j fuel i ds, j + 1 ≤ fuel →
      (∀ m, m < j → ∃ t, action (i + m) = .error t ∧ isDestroyedMsg t = false) →
      (∀ e, action (i + j) = .error e → isDestroyedMsg e = true →
        ((executeWithRetryGo action retryDelay rand fuel i ds).calls = i + j + 1 ∧
         (executeWithRetryGo action retryDelay rand fuel i ds).result = .error (some e))) := by
  intro j
  induction j with
  | zero =>
      intro fuel i ds hfuel _ e he hdes
      obtain ⟨f, rfl⟩ : ∃ f, fuel = f + 1 := ⟨fuel - 1, by omega⟩
      simp only [Nat.add_zero] at he
      by_cases hf : f = 0
      · simp [executeWithRetryGo, he, hf]
      · simp [executeWithRetryGo, he, hf, hdes]
  | succ j2 ih =>
      intro fuel i ds hfuel hpre e he hdes
      obtain ⟨f, rfl⟩ : ∃ f, fuel = f + 1 := ⟨fuel - 1, by omega⟩
      obtain ⟨t, ht, htf⟩ := hpre 0 (by omega)
      simp only [Nat.add_zero] at ht
      have hf : ¬ f = 0 := by omega
      simp only [executeWithRetryGo, ht, hf, if_false, htf, Bool.false_eq_true]
      have hpre2 : ∀ m, m < j2 → ∃ t2, action (i + 1 + m) = .error t2 ∧
          isDestroyedMsg t2 = false := by
        intro m hm
        have h3 := hpre (m + 1) (by omega)
        simpa [Nat.add_assoc, Nat.add_comm 1 m] using h3
      have he2 : action (i + 1 + j2) = .error e := by
        have h4 : i + 1 + j2 = i + (j2 + 1) := by omega
        rw [h4]
        exact he
      have h5 := ih (f) (i + 1) (ds ++ [retryDelay * 2 ^ i + rand i * 1000]) (by omega)
        hpre2 e he2 hdes
      constructor
      · rw [h5.1]; omega
      · exact h5.2

/-- C5: when attempt `j` (0-based) fails with a resource-destroyed message
("Target closed" / "Session closed"), `executeWithRetry` performs zero
further retries — the action has run exactly `j + 1` times — and propagates
that error to the caller. -/
theorem executeWithRetry_destroyed_aborts (action : Nat → Except String α)
    (retryDelay : ℚ) (rand : Nat → ℚ) (maxRetries j : Nat) (e : String)
    (hj : j < maxRetries)
    (hpre : ∀ m, m < j → ∃ t, action m = .error t ∧ isDestroyedMsg t = false)
    (he : action j = .error e) (hdes : isDestroyedMsg e = true) :
    (executeWithRetry action maxRetries retryDelay rand).calls = j + 1 ∧
    (executeWithRetry action maxRetries retryDelay rand).result = .error (some e) := by
  have h := executeWithRetryGo_destroyed action retryDelay rand j maxRetries 0 []
    (by omega) (by simpa using hpre) e (by simpa using he) hdes
  unfold executeWithRetry
  exact ⟨by rw [h.1]; omega, h.2⟩

/-! ## Locator resolution (`resolveLocator`) -/

/-- The object form of a locator argument: the fields `resolveLocator`
destructures.  `none` models an absent (`undefined`) key. -/
structure LocObj where
  role : Option String := none
  name : Option String := none
  exact : Option Bool := none
  text : Option String := none
  label : Option String := none
  placeholder : Option String := none
  testId : Option String := none
  css : Option String := none
  xpath : Option String := none
  deriving DecidableEq, Repr

/-- A locator argument: a string, an object, or anything else. -/
inductive LocArg where
  | str (s : String)
  | obj (o : LocObj)
  | other
  deriving DecidableEq, Repr

/-- The Playwright locator value `resolveLocator` hands back: which matching
strategy is invoked on the page, with its arguments. -/
inductive Locator where
  | getByText (t : String) (exactOpt : Option Bool)
  | getByRole (r : String) (nameOpt : Option (String × Bool))
  | getByLabel (t : String) (exactOpt : Option Bool)
  | getByPlaceholder (t : String) (exactOpt : Option Bool)
  | getByTestId (t : String)
  | locator (sel : String)
  deriving DecidableEq, Repr

/-- JS `!!exact` on an optional boolean. -/
def jsExact : Option Bool → Bool
  | some true => true
  | _ => false

instance : DecidableEq (Except String Locator) := fun x y =>
  match x, y with
  | .ok a, .ok b => if h : a = b then isTrue (by rw [h]) else isFalse (by simp [h])
  | .error a, .error b => if h : a = b then isTrue (by rw [h]) else isFalse (by simp [h])
  | .ok _, .error _ => isFalse (by simp)
  | .error _, .ok _ => isFalse (by simp)

/-- `resolveLocator(page, sel)` from the source: trim, prefix dispatch for
strings; truthiness-guarded key dispatch for objects; otherwise throw
`'Invalid locator'`. -/
def resolveLocator : LocArg → Except String Locator
  | .str sel =>
      let s := strTrim sel
      if strStartsWith s "text=" then .ok (.getByText (strSlice s 5) none)
      else if strStartsWith s "role=" then .ok (.getByRole (strSlice s 5) none)
      else if strStartsWith s "label=" then .ok (.getByLabel (strSlice s 6) none)
      else if strStartsWith s "placeholder=" then .ok (.getByPlaceholder (strSlice s 12) none)
      else if strStartsWith s "testId=" then .ok (.getByTestId (strSlice s 7))
      else if strStartsWith s "xpath=" then .ok (.locator ("xpath=" ++ strSlice s 6))
      else if strStartsWith s "css=" then .ok (.locator (strSlice s 4))
      else .ok (.locator s)
  | .obj o =>
      if truthyStr o.role then
        .ok (.getByRole (o.role.getD "")
          (if truthyStr o.name then some (o.name.getD "", jsExact o.exact) else none))
      else if truthyStr o.text then .ok (.getByText (o.text.getD "") (some (jsExact o.exact)))
      else if truthyStr o.label then .ok (.getByLabel (o.label.getD "") (some (jsExact o.exact)))
      else if truthyStr o.placeholder then
        .ok (.getByPlaceholder (o.placeholder.getD "") (some (jsExact o.exact)))
      else if truthyStr o.testId then .ok (.getByTestId (o.testId.getD ""))
      else if truthyStr o.xpath then .ok (.locator ("xpath=" ++ o.xpath.getD ""))
      else if truthyStr o.css then .ok (.locator (o.css.getD ""))
      else .error "Invalid locator"
  | .other => .error "Invalid locator"

/-- Claim C8's wording of the mapping: prefix dispatch on the string exactly
as given (the claim mentions no trimming), and object dispatch on the first
PRESENT key in priority order (presence, not truthiness). -/
def resolveLocatorClaim : LocArg → Except String Locator
  | .str s =>
      if strStartsWith s "text=" then .ok (.getByText (strSlice s 5) none)
      else if strStartsWith s "role=" then .ok (.getByRole (strSlice s 5) none)
      else if strStartsWith s "label=" then .ok (.getByLabel (strSlice s 6) none)
      else if strStartsWith s "placeholder=" then .ok (.getByPlaceholder (strSlice s 12) none)
      else if strStartsWith s "testId=" then .ok (.getByTestId (strSlice s 7))
      else if strStartsWith s "xpath=" then .ok (.locator ("xpath=" ++ strSlice s 6))
      else if strStartsWith s "css=" then .ok (.locator (strSlice s 4))
      else .ok (.locator s)
  | .obj o =>
      if o.role.isSome then
        .ok (.getByRole (o.role.getD "")
          (if o.name.isSome then some (o.name.getD "", jsExact o.exact) else none))
      else if o.text.isSome then .ok (.getByText (o.text.getD "") (some (jsExact o.exact)))
      else if o.label.isSome then .ok (.getByLabel (o.label.getD "") (some (jsExact o.exact)))
      else if o.placeholder.isSome then
        .ok (.getByPlaceholder (o.placeholder.getD "") (some (jsExact o.exact)))
      else if o.testId.isSome then .ok (.getByTestId (o.testId.getD ""))
      else if o.xpath.isSome then .ok (.locator ("xpath=" ++ o.xpath.getD ""))
      else if o.css.isSome then .ok (.locator (o.css.getD ""))
      else .error "Invalid locator"
  | .other => .error "Invalid locator"

/-- The prefix dispatch table of the amended C8 wording: recognized prefix,
its character length, the strategy applied to the remainder. -/
def prefixDispatch : List (String × Nat × (String → Locator)) :=
  [ ("text=", 5, fun r => .getByText r none),
    ("role=", 5, fun r => .getByRole r none),
    ("label=", 6, fun r => .getByLabel r none),
    ("placeholder=", 12, fun r => .getByPlaceholder r none),
    ("testId=", 7, fun r => .getByTestId r),
    ("xpath=", 6, fun r => .locator ("xpath=" ++ r)),
    ("css=", 4, fun r => .locator r) ]

/-- The object-key dispatch list of the amended C8 wording: for each key in
priority order, whether it is present with a truthy value, and the locator it
builds. -/
def objDispatch (o : LocObj) : List (Bool × Locator) :=
  [ (truthyStr o.role, .getByRole (o.role.getD "")
      (if truthyStr o.name then some (o.name.getD "", jsExact o.exact) else none)),
    (truthyStr o.text, .getByText (o.text.getD "") (some (jsExact o.exact))),
    (truthyStr o.label, .getByLabel (o.label.getD "") (some (jsExact o.exact))),
    (truthyStr o.placeholder, .getByPlaceholder (o.placeholder.getD "") (some (jsExact o.exact))),
    (truthyStr o.testId, .getByTestId (o.testId.getD "")),
    (truthyStr o.xpath, .locator ("xpath=" ++ o.xpath.getD "")),
    (truthyStr o.css, .locator (o.css.getD "")) ]

/-- Amended C8 mapping: the string is trimmed before the first matching
prefix (in table order) selects its strategy on the remainder, unprefixed
trimmed strings get element-selector semantics; an object resolves by its
first key whose value is truthy (for strings: present and non-empty) in the
priority order role, text, label, placeholder, testId, xpath, css, with
role's name option attached only when `name` is truthy; anything else is an
invalid locator. -/
def resolveLocatorAmended : LocArg → Except String Locator
  | .str sel =>
      let s := strTrim sel
      match prefixDispatch.find? (fun e => strStartsWith s e.1) with
      | some e => .ok (e.2.2 (strSlice s e.2.1))
      | none => .ok (.locator s)
  | .obj o =>
      match (objDispatch o).find? (·.1) with
      | some e => .ok e.2
      | none => .error "Invalid locator"
  | .other => .error "Invalid locator"

/-- C8 counterexample: the code keys object dispatch on truthiness, not
presence — an object whose `role` key is present but empty resolves through
`css` — and it trims strings first — `" text=hi"`, which starts with a space
rather than a recognized prefix, still resolves through the text strategy. -/
theorem resolveLocator_claim_counterexample :
    resolveLocator (.obj { role := some "", css := some "x" }) = .ok (.locator "x") ∧
    resolveLocatorClaim (.obj { role := some "", css := some "x" })
      = .ok (.getByRole "" none) ∧
    resolveLocator (.obj { role := some "", css := some "x" })
      ≠ resolveLocatorClaim (.obj { role := some "", css := some "x" }) ∧
    resolveLocator (.str " text=hi") = .ok (.getByText "hi" none) ∧
    resolveLocatorClaim (.str " text=hi") = .ok (.locator " text=hi") ∧
    resolveLocator (.str " text=hi") ≠ resolveLocatorClaim (.str " text=hi") := by
  decide

/-- C8 as amended: `resolveLocator` is exactly the amended pure mapping —
trim-then-prefix dispatch for strings, first-truthy-key dispatch for
objects, `'Invalid locator'` otherwise. -/
theorem resolveLocator_eq_amended (a : LocArg) :
    resolveLocator a = resolveLocatorAmended a := by
  cases a with
  | other => rfl
  | str sel =>
      by_cases h1 : strStartsWith (strTrim sel) "text="
      · simp [resolveLocator, resolveLocatorAmended, prefixDispatch, List.find?, h1]
      by_cases h2 : strStartsWith (strTrim sel) "role="
      · simp [resolveLocator, resolveLocatorAmended, prefixDispatch, List.find?, h1, h2]
      by_cases h3 : strStartsWith (strTrim sel) "label="
      · simp [resolveLocator, resolveLocatorAmended, prefixDispatch, List.find?, h1, h2, h3]
      by_cases h4 : strStartsWith (strTrim sel) "placeholder="
      · simp [resolveLocator, resolveLocatorAmended, prefixDispatch, List.find?, h1, h2, h3, h4]
      by_cases h5 : strStartsWith (strTrim sel) "testId="
      · simp [resolveLocator, resolveLocatorAmended, prefixDispatch, List.find?,
          h1, h2, h3, h4, h5]
      by_cases h6 : strStartsWith (strTrim sel) "xpath="
      · simp [resolveLocator, resolveLocatorAmended, prefixDispatch, List.find?,
          h1, h2, h3, h4, h5, h6]
      by_cases h7 : strStartsWith (strTrim sel) "css="
      · simp [resolveLocator, resolveLocatorAmended, prefixDispatch, List.find?,
          h1, h2, h3, h4, h5, h6, h7]
      · simp [resolveLocator, resolveLocatorAmended, prefixDispatch, List.find?,
          h1, h2, h3, h4, h5, h6, h7]
  | obj o =>
      by_cases h1 : truthyStr o.role
      · simp [resolveLocator, resolveLocatorAmended, objDispatch, List.find?, h1]
      by_cases h2 : truthyStr o.text
      · simp [resolveLocator, resolveLocatorAmended, objDispatch, List.find?, h1, h2]
      by_cases h3 : truthyStr o.label
      · simp [resolveLocator, resolveLocatorAmended, objDispatch, List.find?, h1, h2, h3]
      by_cases h4 : truthyStr o.placeholder
      · simp [resolveLocator, resolveLocatorAmended, objDispatch, List.find?, h1, h2, h3, h4]
      by_cases h5 : truthyStr o.testId
      · simp [resolveLocator, resolveLocatorAmended, objDispatch, List.find?, h1, h2, h3, h4, h5]
      by_cases h6 : truthyStr o.xpath
      · simp [resolveLocator, resolveLocatorAmended, objDispatch, List.find?,
          h1, h2, h3, h4, h5, h6]
      by_cases h7 : truthyStr o.css
      · simp [resolveLocator, resolveLocatorAmended, objDispatch, List.find?,
          h1, h2, h3, h4, h5, h6, h7]
      · simp [resolveLocator, resolveLocatorAmended, objDispatch, List.find?,
          h1, h2, h3, h4, h5, h6, h7]

/-! ## Human-like click (`HumanInteraction.humanLikeClick`)

The element's bounding box and the five `Math.random()` draws (X offset,
Y offset, step count, pre-click pause, press duration) determine the click
plan; coordinates and durations are rationals. -/

/-- `locator.boundingBox()`. -/
structure BoundingBox where
  x : ℚ
  y : ℚ
  width : ℚ
  height : ℚ

/-- What `humanLikeClick` computes before it acts: the click point, the
`mouse.move` step count, the pre-click pause, the click press duration. -/
structure ClickPlan where
  targetX : ℚ
  targetY : ℚ
  steps : Nat
  pauseMs : ℚ
  pressMs : ℚ

/-- `HumanInteraction.humanLikeClick` after the visibility wait succeeded and
the bounding box came back non-null: offset the box center by
`(r - 0.5) * min(extent * 0.6, 20)` per axis (width on X, height on Y), move
with `floor(r * 10) + 5` steps, pause `r * 300 + 100` ms, click with a
`r * 100 + 50` ms press. -/
def humanLikeClick (box : BoundingBox) (r1 r2 r3 r4 r5 : ℚ) : ClickPlan :=
  let offsetX := (r1 - 1/2) * min (box.width * (6/10)) 20
  let offsetY := (r2 - 1/2) * min (box.height * (6/10)) 20
  { targetX := box.x + box.width / 2 + offsetX,
    targetY := box.y + box.height / 2 + offsetY,
    steps := (⌊r3 * 10⌋).toNat + 5,
    pauseMs := r4 * 300 + 100,
    pressMs := r5 * 100 + 50 }

/-- Claim C9's reading: both axes' jitter bounded by
`min(60% of the box WIDTH, 20px)`, 5–15 steps, 100–400 ms pause,
50–150 ms press. -/
def clickClaimOK (box : BoundingBox) (r1 r2 r3 r4 r5 : ℚ) : Prop :=
  let p := humanLikeClick box r1 r2 r3 r4 r5
  |p.targetX - (box.x + box.width / 2)| ≤ min (box.width * (6/10)) 20 ∧
  |p.targetY - (box.y + box.height / 2)| ≤ min (box.width * (6/10)) 20 ∧
  5 ≤ p.steps ∧ p.steps ≤ 15 ∧
  100 ≤ p.pauseMs ∧ p.pauseMs ≤ 400 ∧
  50 ≤ p.pressMs ∧ p.pressMs ≤ 150

/-- C9 counterexample: the code draws the Y jitter from the box HEIGHT, not
its width — on a 10 × 100 box with the Y draw at 0.9 the Y offset is 8 px,
above the claimed per-axis bound `min(0.6 * width, 20) = 6`. -/
theorem humanLikeClick_counterexample :
    ¬ clickClaimOK ⟨0, 0, 10, 100⟩ (1/2) (9/10) (1/2) (1/2) (1/2) := by
  intro h
  have h2 := h.2.1
  norm_num [humanLikeClick] at h2

/-- C9 as amended: for every bounding box with nonnegative extents and every
choice of the five random draws in `[0, 1)`, the click point is offset from
the box center by a jitter bounded per axis by `min(60% of that axis's
extent, 20px)` — width on X, height on Y — the pointer moves in 5 to 14
(within 5–15) steps, the pre-click pause lies in `[100, 400)` ms and the
press duration in `[50, 150)` ms. -/
theorem humanLikeClick_bounds (box : BoundingBox) (r1 r2 r3 r4 r5 : ℚ)
    (hw : 0 ≤ box.width) (hh : 0 ≤ box.height)
    (h1 : 0 ≤ r1 ∧ r1 < 1) (h2 : 0 ≤ r2 ∧ r2 < 1) (h3 : 0 ≤ r3 ∧ r3 < 1)
    (h4 : 0 ≤ r4 ∧ r4 < 1) (h5 : 0 ≤ r5 ∧ r5 < 1) :
    |(humanLikeClick box r1 r2 r3 r4 r5).targetX - (box.x + box.width / 2)|
      ≤ min (box.width * (6/10)) 20 ∧
    |(humanLikeClick box r1 r2 r3 r4 r5).targetY - (box.y + box.height / 2)|
      ≤ min (box.height * (6/10)) 20 ∧
    5 ≤ (humanLikeClick box r1 r2 r3 r4 r5).steps ∧
    (humanLikeClick box r1 r2 r3 r4 r5).steps < 15 ∧
    100 ≤ (humanLikeClick box r1 r2 r3 r4 r5).pauseMs ∧
    (humanLikeClick box r1 r2 r3 r4 r5).pauseMs < 400 ∧
    50 ≤ (humanLikeClick box r1 r2 r3 r4 r5).pressMs ∧
    (humanLikeClick box r1 r2 r3 r4 r5).pressMs < 150 := by
  have key : ∀ (r m : ℚ), 0 ≤ r → r < 1 → 0 ≤ m → |(r - 1/2) * m| ≤ m := by
    intro r m hr0 hr1 hm
    rw [abs_mul, abs_of_nonneg hm]
    have habs : |r - 1/2| ≤ 1/2 := by
      rw [abs_le]
      constructor <;> linarith
    nlinarith [abs_nonneg (r - 1/2)]
  have hmw : 0 ≤ min (box.width * (6/10)) 20 := le_min (by positivity) (by norm_num)
  have hmh : 0 ≤ min (box.height * (6/10)) 20 := le_min (by positivity) (by norm_num)
  refine ⟨?_, ?_, ?_, ?_, ?_, ?_, ?_, ?_⟩
  · have hx : (humanLikeClick box r1 r2 r3 r4 r5).targetX - (box.x + box.width / 2)
        = (r1 - 1/2) * min (box.width * (6/10)) 20 := by
      simp [humanLikeClick]
    rw [hx]
    exact key r1 _ h1.1 h1.2 hmw
  · have hy : (humanLikeClick box r1 r2 r3 r4 r5).targetY - (box.y + box.height / 2)
        = (r2 - 1/2) * min (box.height * (6/10)) 20 := by
      simp [humanLikeClick]
    rw [hy]
    exact key r2 _ h2.1 h2.2 hmh
  · exact Nat.le_add_left 5 _
  · have hfl : ⌊r3 * 10⌋ ≤ 9 := by
      have : r3 * 10 < 10 := by linarith
      have h10 : ⌊r3 * 10⌋ < 10 := by
        rw [Int.floor_lt]
        push_cast
        linarith
      omega
    have : (⌊r3 * 10⌋).toNat ≤ 9 := Int.toNat_le.mpr (by exact_mod_cast hfl)
    simp only [humanLikeClick]
    omega
  · simp only [humanLikeClick]
    linarith [h4.1]
  · simp only [humanLikeClick]
    linarith [h4.2]
  · simp only [humanLikeClick]
    linarith [h5.1]
  · simp only [humanLikeClick]
    linarith [h5.2]

/-- C9 witness: a 100 × 50 box at (3, 7) with every draw at one half. -/
theorem humanLikeClick_bounds_witness :
    |(humanLikeClick ⟨3, 7, 100, 50⟩ (1/2) (1/2) (1/2) (1/2) (1/2)).targetX - (3 + 100 / 2)|
      ≤ min (100 * (6/10)) 20 ∧
    |(humanLikeClick ⟨3, 7, 100, 50⟩ (1/2) (1/2) (1/2) (1/2) (1/2)).targetY - (7 + 50 / 2)|
      ≤ min (50 * (6/10)) 20 ∧
    5 ≤ (humanLikeClick ⟨3, 7, 100, 50⟩ (1/2) (1/2) (1/2) (1/2) (1/2)).steps ∧
    (humanLikeClick ⟨3, 7, 100, 50⟩ (1/2) (1/2) (1/2) (1/2) (1/2)).steps < 15 ∧
    100 ≤ (humanLikeClick ⟨3, 7, 100, 50⟩ (1/2) (1/2) (1/2) (1/2) (1/2)).pauseMs ∧
    (humanLikeClick ⟨3, 7, 100, 50⟩ (1/2) (1/2) (1/2) (1/2) (1/2)).pauseMs < 400 ∧
    50 ≤ (humanLikeClick ⟨3, 7, 100, 50⟩ (1/2) (1/2) (1/2) (1/2) (1/2)).pressMs ∧
    (humanLikeClick ⟨3, 7, 100, 50⟩ (1/2) (1/2) (1/2) (1/2) (1/2)).pressMs < 150 :=
  humanLikeClick_bounds ⟨3, 7, 100, 50⟩ (1/2) (1/2) (1/2) (1/2) (1/2)
    (by norm_num) (by norm_num)
    ⟨by norm_num, by norm_num⟩ ⟨by norm_num, by norm_num⟩ ⟨by norm_num, by norm_num⟩
    ⟨by norm_num, by norm_num⟩ ⟨by norm_num, by norm_num⟩

/-- C5 witness: a first-attempt `"Target closed"` failure under the default
policy: one single call and the error propagated. -/
theorem executeWithRetry_destroyed_aborts_witness :
    (executeWithRetry (fun _ => Except.error "Target closed" : Nat → Except String Unit)
        3 1000 (fun _ => (1 : ℚ) / 2)).calls = 1 ∧
    (executeWithRetry (fun _ => Except.error "Target closed" : Nat → Except String Unit)
        3 1000 (fun _ => (1 : ℚ) / 2)).result = .error (some "Target closed") :=
  executeWithRetry_destroyed_aborts (fun _ => Except.error "Target closed") 1000
    (fun _ => (1 : ℚ) / 2) 3 0 "Target closed" (by omega)
    (fun m hm => absurd hm (Nat.not_lt_zero m)) rfl (by decide)

/-! ## Page Multiplexer (`PageManager.getOrCreatePage`) -/

/-- Search for the `"://"` scheme separator. -/
def afterSchemeSep : List Char → Option (List Char)
  | [] => none
  | c :: rest =>
      if [':', '/', '/'].isPrefixOf (c :: rest) then some (rest.drop 2)
      else afterSchemeSep rest

/-- Hostname extraction of the WHATWG `URL` class (`new URL(url).hostname`),
modelled for the common `scheme://host[:port]/path` shape the adapter
handles. -/
def urlHostname (u : String) : String :=
  let rest := (afterSchemeSep u.data).getD u.data
  String.mk (rest.takeWhile (fun c => !(c = '/' || c = ':' || c = '?' || c = '#')))

/-- Result of `getOrCreatePage`: the returned page handle plus the updated
manager state, world, and emitted events. -/
structure PageRes where
  pid : Nat
  st : MgrState
  w : World
  evs : List Ev
  deriving DecidableEq, Repr

/-- The reuse predicate of `getOrCreatePage`'s page scan: the page is still
open and (when a hostname is available) its current address contains the
hostname as a substring. -/
def reusablePage (w : World) (hostname : Option String) (kv : String × PageInfo) : Bool :=
  !(pageIsClosed w kv.2.pid) &&
    match hostname with
    | none => true
    | some h => strIncludes (pageUrl w kv.2.pid) h

/-- The `// Create new page` tail of `getOrCreatePage`: a fresh page keyed by
its (blank) address at the next tab index, navigated when a url was given. -/
def createNewPage (sid : String) (session : Session) (st : MgrState) (w : World)
    (evs : List Ev) (u? : Option String) (now : Nat) : PageRes :=
  let np := newPage w session.ctx
  let pageInfo : PageInfo := { pid := np.1, createdAt := now, tabIndex := session.tabs.length }
  let session2 := { session with pages := mapSet (pageUrl np.2 np.1) pageInfo session.pages,
                                 tabs := session.tabs ++ [pageInfo] }
  let st2 := { st with activeSessions := mapSet sid session2 st.activeSessions }
  match u? with
  | some u => { pid := np.1, st := st2, w := gotoPage np.2 np.1 u,
                evs := evs ++ [.pageCreated np.1, .navigated np.1 u] }
  | none => { pid := np.1, st := st2, w := np.2, evs := evs ++ [.pageCreated np.1] }

/-- `PageManager.getOrCreatePage(sessionId, url, options)`: resolve the
session; unless reuse is disabled, return the first open page of the
session's page map whose current address contains the hostname of `url`
(any open page when `url` is absent), navigating first when the address
differs; otherwise create a page at the next tab index and navigate when
`url` is given. -/
def getOrCreatePage (st : MgrState) (w : World) (sid : String) (url : Option String)
    (opts : SessionOptions) (now : Nat) : PageRes :=
  let r := getOrCreateSession st w sid opts now
  let u? := jsStrOpt url
  if opts.reuseTab then
    let hostname := u?.map urlHostname
    match r.session.pages.find? (reusablePage r.w hostname) with
    | some kv =>
        if pageIsClosed r.w kv.2.pid then
          createNewPage sid r.session r.st r.w r.evs u? now
        else
          match u? with
          | some u =>
              if pageUrl r.w kv.2.pid ≠ u then
                { pid := kv.2.pid, st := r.st, w := gotoPage r.w kv.2.pid u,
                  evs := r.evs ++ [.navigated kv.2.pid u] }
              else { pid := kv.2.pid, st := r.st, w := r.w, evs := r.evs }
          | none => { pid := kv.2.pid, st := r.st, w := r.w, evs := r.evs }
    | none => createNewPage sid r.session r.st r.w r.evs u? now
  else createNewPage sid r.session r.st r.w r.evs u? now

/-- C6: with tab reuse enabled and a non-empty `url`, `getOrCreatePage`
returns a still-open page of the resolved session whose address contains the
hostname of `url` when one exists, navigating exactly when its address
differs from `url` and touching no session state; otherwise it creates a
fresh page at the next tab index (appended to the session's tabs) and
navigates it to `url`. -/
theorem getOrCreatePage_spec (st : MgrState) (w : World) (sid u : String)
    (opts : SessionOptions) (now : Nat) (r : SessRes) (res : PageRes)
    (hreuse : opts.reuseTab = true) (hu : u ≠ "")
    (hr : getOrCreateSession st w sid opts now = r)
    (hres : getOrCreatePage st w sid (some u) opts now = res) :
    ((∃ kv ∈ r.session.pages, reusablePage r.w (some (urlHostname u)) kv = true) →
      ∃ kv ∈ r.session.pages, reusablePage r.w (some (urlHostname u)) kv = true ∧
        res.pid = kv.2.pid ∧
        res.evs = r.evs ++
          (if pageUrl r.w kv.2.pid ≠ u then [Ev.navigated kv.2.pid u] else []) ∧
        res.st = r.st) ∧
    ((¬ ∃ kv ∈ r.session.pages, reusablePage r.w (some (urlHostname u)) kv = true) →
      res.pid = r.w.nextPid ∧
      res.evs = r.evs ++ [Ev.pageCreated r.w.nextPid, Ev.navigated r.w.nextPid u] ∧
      (∃ s2, mapGet sid res.st.activeSessions = some s2 ∧
        s2.tabs = r.session.tabs ++
          [{ pid := r.w.nextPid, createdAt := now, tabIndex := r.session.tabs.length }])) := by
  subst hr
  have hu2 : jsStrOpt (some u) = some u := by simp [jsStrOpt, hu]
  unfold getOrCreatePage at hres
  rw [hu2, hreuse] at hres
  simp only [if_true, Option.map] at hres
  cases hfind : (getOrCreateSession st w sid opts now).session.pages.find?
      (reusablePage (getOrCreateSession st w sid opts now).w (some (urlHostname u))) with
  | some kv =>
      rw [hfind] at hres
      have hkv := List.find?_some hfind
      have hmem := List.mem_of_find?_eq_some hfind
      have hopen : pageIsClosed (getOrCreateSession st w sid opts now).w kv.2.pid = false := by
        unfold reusablePage at hkv
        cases hcl : pageIsClosed (getOrCreateSession st w sid opts now).w kv.2.pid with
        | false => rfl
        | true => rw [hcl] at hkv; simp at hkv
      simp only [hopen, Bool.false_eq_true, if_false] at hres
      constructor
      · intro _
        refine ⟨kv, hmem, hkv, ?_⟩
        by_cases hne : pageUrl (getOrCreateSession st w sid opts now).w kv.2.pid ≠ u
        · rw [if_pos hne]
          rw [if_pos hne] at hres
          subst hres
          exact ⟨rfl, rfl, rfl⟩
        · rw [if_neg hne]
          rw [if_neg hne] at hres
          subst hres
          exact ⟨rfl, by simp, rfl⟩
      · intro hno
        exact absurd ⟨kv, hmem, hkv⟩ hno
  | none =>
      rw [hfind] at hres
      constructor
      · intro hex
        obtain ⟨kv, hmem, hkv⟩ := hex
        have := List.find?_eq_none.mp hfind kv hmem
        rw [hkv] at this
        simp at this
      · intro _
        subst hres
        unfold createNewPage
        refine ⟨rfl, rfl, ?_⟩
        exact ⟨_, mapGet_set_self sid _ _, rfl⟩

/-- C6 witness: creating a page for a fresh session (no reusable page), at a
concrete url: the initial scan finds nothing, so a page is created at tab
index 0 and navigated. -/
theorem getOrCreatePage_spec_witness :
    (getOrCreatePage emptyMgr emptyWorld "s" (some "https://github.com") {} 5).pid = 1 ∧
    (getOrCreatePage emptyMgr emptyWorld "s" (some "https://github.com") {} 5).evs =
      [Ev.sessionCreated "s" 0, Ev.pageCreated 1, Ev.navigated 1 "https://github.com"] ∧
    (∃ s2, mapGet "s"
        (getOrCreatePage emptyMgr emptyWorld "s" (some "https://github.com") {} 5).st.activeSessions
        = some s2 ∧
      s2.tabs = [{ pid := 1, createdAt := 5, tabIndex := 0 }]) := by
  have h := getOrCreatePage_spec emptyMgr emptyWorld "s" "https://github.com" {} 5
    (getOrCreateSession emptyMgr emptyWorld "s" {} 5)
    (getOrCreatePage emptyMgr emptyWorld "s" (some "https://github.com") {} 5)
    rfl (by decide) rfl rfl
  have hb := h.2 (by decide)
  obtain ⟨s2, hs2, ht⟩ := hb.2.2
  refine ⟨hb.1, ?_, s2, hs2, ?_⟩
  · rw [hb.2.1]
    rfl
  · rw [ht]
    rfl

/-! ## The `read` verb (`doRead`)

The DOM side of a read — whether the locator's attached-wait succeeds and
what the selected mode returns — is environment input (`ReadEnv`); the
dispatcher's argument validation, page resolution, retry wrapping, and the
`fail(...)`/`process.exit` short-circuit are modelled from the source. -/

/-- Environment facts a `read` run depends on. -/
structure ReadEnv where
  /-- Whether `loc.waitFor({ state: 'attached' })` succeeds in time. -/
  waitOk : Bool := true
  /-- What the DOM hands back for the selected mode (`null` as `none`). -/
  readVal : Option String := none
  deriving DecidableEq, Repr

/-- Arguments of the `read` verb.  `attr` models the JS `attribute` field
(that word is reserved in Lean). -/
structure ReadArgs where
  locator : Option LocArg := none
  sessionId : String := "default"
  as : String := "text"
  attr : Option String := none
  url : Option String := none
  opts : SessionOptions := {}
  deriving Repr

/-- The dispatcher's structured output for `read`: `ok` data or one of the
`fail(code, msg, details)` envelopes. -/
inductive ReadOut where
  | okVal (value : Option String) (sessionId : String)
  | failMissing (missing : List String)
  | failInvalid (msg : String)
  | failAdapter (msg : String)
  deriving DecidableEq, Repr

/-- The numeric error code of a `read` outcome (10 MissingArguments /
InvalidArgs, 50 AdapterError, 0 for success). -/
def ReadOut.code : ReadOut → Nat
  | .okVal .. => 0
  | .failMissing _ => 10
  | .failInvalid _ => 10
  | .failAdapter _ => 50

/-- JS truthiness of the `locator` argument (`if (!locator) ...`). -/
def truthyLoc : Option LocArg → Bool
  | none => false
  | some (.str s) => s ≠ ""
  | some _ => true

/-- Result of one attempt of the retried `read` action: a value, a thrown
error (retryable), or a `fail(...)` process exit (never retried). -/
inductive ActRes where
  | ok (v : Option String)
  | thrown (msg : String)
  | exited (out : ReadOut)
  deriving DecidableEq, Repr

/-- One attempt of `doRead`'s retried action: resolve the page, resolve the
locator, wait for attachment, then dispatch on `as` — validating the
`attribute` field only at its point of use. -/
def doReadAttempt (env : ReadEnv) (st : MgrState) (w : World) (args : ReadArgs)
    (now : Nat) : ActRes × MgrState × World × List Ev :=
  let pr := getOrCreatePage st w args.sessionId args.url args.opts now
  match resolveLocator (args.locator.getD .other) with
  | .error m => (.thrown m, pr.st, pr.w, pr.evs)
  | .ok _loc =>
      let evs := pr.evs ++ [.locatorWaited pr.pid]
      if !env.waitOk then (.thrown "Timeout", pr.st, pr.w, evs)
      else
        match args.as with
        | "text" => (.ok (some (env.readVal.getD "")), pr.st, pr.w, evs)
        | "html" => (.ok env.readVal, pr.st, pr.w, evs)
        | "value" => (.ok env.readVal, pr.st, pr.w, evs)
        | "attribute" =>
            match jsStrOpt args.attr with
            | none => (.exited (.failMissing ["attribute"]), pr.st, pr.w, evs)
            | some _ => (.ok env.readVal, pr.st, pr.w, evs)
        | other => (.exited (.failInvalid ("Unknown read mode: " ++ other)), pr.st, pr.w, evs)

/-- The `executeWithRetry` loop around `doRead`'s action (state threads
across attempts; a `fail(...)` exit short-circuits; a resource-destroyed
message aborts the retries). -/
def doReadLoop (env : ReadEnv) (args : ReadArgs) (now : Nat) :
    Nat → MgrState → World → List Ev → Option String → ReadOut × MgrState × World × List Ev
  | 0, st, w, evs, lastErr => (.failAdapter (lastErr.getD ""), st, w, evs)
  | fuel + 1, st, w, evs, _lastErr =>
      let a := doReadAttempt env st w args now
      match a.1 with
      | .ok v => (.okVal v args.sessionId, a.2.1, a.2.2.1, evs ++ a.2.2.2)
      | .exited out => (out, a.2.1, a.2.2.1, evs ++ a.2.2.2)
      | .thrown m =>
          if isDestroyedMsg m then (.failAdapter m, a.2.1, a.2.2.1, evs ++ a.2.2.2)
          else doReadLoop env args now fuel a.2.1 a.2.2.1 (evs ++ a.2.2.2) (some m)

/-- `doRead(args)`: validate `locator` up front, then run the retried
action (default policy: three attempts). -/
def doRead (env : ReadEnv) (st : MgrState) (w : World) (args : ReadArgs) (now : Nat) :
    ReadOut × MgrState × World × List Ev :=
  if truthyLoc args.locator then doReadLoop env args now 3 st w [] none
  else (.failMissing ["locator"], st, w, [])

/-- The event kinds that touch a session, page, or locator. -/
def isPageInteraction : Ev → Bool
  | .sessionCreated _ _ => true
  | .pageCreated _ => true
  | .navigated _ _ => true
  | .locatorWaited _ => true
  | _ => false

/-- A concrete `read` invocation with `as: 'attribute'` and no `attribute`
argument, from the empty registry. -/
def c7Run : ReadOut × MgrState × World × List Ev :=
  doRead {} emptyMgr emptyWorld { locator := some (.str "#x"), as := "attribute" } 0

/-- C7 counterexample: the `attribute` validation lives inside the retried
action, after page resolution and the locator wait — the verb does fail with
MissingArguments code 10 naming `attribute`, but only after a session and a
page were created and the locator was waited on, contradicting the claimed
"before any page interaction". -/
theorem doRead_missing_attribute_counterexample :
    c7Run.1 = .failMissing ["attribute"] ∧
    c7Run.1.code = 10 ∧
    ¬ (c7Run.2.2.2.all (fun e => !isPageInteraction e) = true) ∧
    Ev.pageCreated 1 ∈ c7Run.2.2.2 ∧
    Ev.sessionCreated "default" 0 ∈ c7Run.2.2.2 ∧
    Ev.locatorWaited 1 ∈ c7Run.2.2.2 := by
  decide

/-- C7 as amended: whenever `read` runs with `as: 'attribute'`, no truthy
`attribute` argument, a truthy locator that resolves, and an attached-wait
that succeeds, it fails with MissingArguments (code 10) naming `attribute` —
but only after the session/page has been resolved and the locator waited on:
the emitted events are exactly the page-resolution events followed by the
locator wait. -/
theorem doRead_missing_attribute_after_interaction (env : ReadEnv) (st : MgrState)
    (w : World) (args : ReadArgs) (now : Nat) (l : Locator)
    (has : args.as = "attribute") (hattr : jsStrOpt args.attr = none)
    (hloc : truthyLoc args.locator = true)
    (hres : resolveLocator (args.locator.getD .other) = .ok l)
    (hwait : env.waitOk = true) :
    (doRead env st w args now).1 = .failMissing ["attribute"] ∧
    (doRead env st w args now).1.code = 10 ∧
    (doRead env st w args now).2.2.2 =
      (getOrCreatePage st w args.sessionId args.url args.opts now).evs ++
        [Ev.locatorWaited (getOrCreatePage st w args.sessionId args.url args.opts now).pid] := by
  unfold doRead
  rw [hloc]
  simp only [if_true]
  unfold doReadLoop doReadAttempt
  rw [hres, has, hattr, hwait]
  simp [ReadOut.code]

/-- C7 amended-claim witness: the concrete run of `c7Run`'s arguments. -/
theorem doRead_missing_attribute_after_interaction_witness :
    (doRead {} emptyMgr emptyWorld { locator := some (.str "#x"), as := "attribute" } 0).1
      = .failMissing ["attribute"] ∧
    (doRead {} emptyMgr emptyWorld { locator := some (.str "#x"), as := "attribute" } 0).1.code
      = 10 ∧
    (doRead {} emptyMgr emptyWorld { locator := some (.str "#x"), as := "attribute" } 0).2.2.2 =
      (getOrCreatePage emptyMgr emptyWorld "default" none {} 0).evs ++
        [Ev.locatorWaited (getOrCreatePage emptyMgr emptyWorld "default" none {} 0).pid] :=
  doRead_missing_attribute_after_interaction {} emptyMgr emptyWorld
    { locator := some (.str "#x"), as := "attribute" } 0 (.locator "#x")
    rfl rfl (by decide) (by decide) rfl
